import Mathlib

/-!
Verification development for the RAG vector-store connector
(`rag/rag_engine.py`).

The module under study wraps a remote Chroma vector database: it ingests
text chunks keyed by the SHA-256 hash of their UTF-8 bytes, queries the
collection for nearest matches (optionally filtered on the metadata field
`customer_name`), and can reset the collection.

Definitions below fall in two groups:
* faithful translations of the Python source (`doc_id`, `ingest_request`,
  `build_where`, the response reshaping in `query_vector_db`,
  `reset_collection`, `get_vector_client_and_collection`), and
* models of the remote Chroma service, whose code is not part of this
  repository; these carry a doc comment starting `Modelled from the spec:`
  and follow the specification's description of the wire contract.

Machine integers are `Nat` with explicit reduction modulo `2 ^ 32`;
distances are modelled as `Rat` (only their ordering matters to the
claims).
-/

/-! ## SHA-256 (translation of `hashlib.sha256(...).hexdigest()`) -/

/-- Reduce a natural number to a 32-bit word. -/
def w32 (n : Nat) : Nat := n % 4294967296

/-- Right rotation of a 32-bit word by `n` bits. -/
def rotr (n x : Nat) : Nat := w32 ((x >>> n) ||| (x <<< (32 - n)))

/-- SHA-256 small sigma 0. -/
def ssig0 (x : Nat) : Nat := Nat.xor (Nat.xor (rotr 7 x) (rotr 18 x)) (x >>> 3)

/-- SHA-256 small sigma 1. -/
def ssig1 (x : Nat) : Nat := Nat.xor (Nat.xor (rotr 17 x) (rotr 19 x)) (x >>> 10)

/-- SHA-256 big sigma 0. -/
def bsig0 (x : Nat) : Nat := Nat.xor (Nat.xor (rotr 2 x) (rotr 13 x)) (rotr 22 x)

/-- SHA-256 big sigma 1. -/
def bsig1 (x : Nat) : Nat := Nat.xor (Nat.xor (rotr 6 x) (rotr 11 x)) (rotr 25 x)

/-- SHA-256 choice function. -/
def chF (x y z : Nat) : Nat := Nat.xor (Nat.land x y) (Nat.land (Nat.xor x 4294967295) z)

/-- SHA-256 majority function. -/
def majF (x y z : Nat) : Nat :=
  Nat.xor (Nat.xor (Nat.land x y) (Nat.land x z)) (Nat.land y z)

/-- The 64 SHA-256 round constants (FIPS 180-4, in decimal). -/
def K256 : List Nat :=
  [1116352408, 1899447441, 3049323471, 3921009573, 961987163,
   1508970993, 2453635748, 2870763221, 3624381080, 310598401,
   607225278, 1426881987, 1925078388, 2162078206, 2614888103,
   3248222580, 3835390401, 4022224774, 264347078, 604807628,
   770255983, 1249150122, 1555081692, 1996064986, 2554220882,
   2821834349, 2952996808, 3210313671, 3336571891, 3584528711,
   113926993, 338241895, 666307205, 773529912, 1294757372,
   1396182291, 1695183700, 1986661051, 2177026350, 2456956037,
   2730485921, 2820302411, 3259730800, 3345764771, 3516065817,
   3600352804, 4094571909, 275423344, 430227734, 506948616,
   659060556, 883997877, 958139571, 1322822218, 1537002063,
   1747873779, 1955562222, 2024104815, 2227730452, 2361852424,
   2428436474, 2756734187, 3204031479, 3329325298]

/-- The SHA-256 initial hash value, eight 32-bit words in decimal. -/
def H256 : List Nat :=
  [1779033703, 3144134277, 1013904242, 2773480762,
   1359893119, 2600822924, 528734635, 1541459225]

/-- Big-endian byte encoding of `n` on `k` bytes. -/
def toBE : Nat → Nat → List Nat
  | 0, _ => []
  | k + 1, n => toBE k (n / 256) ++ [n % 256]

/-- SHA-256 padding: append `0x80`, zero bytes, and the 64-bit big-endian
bit length, bringing the total length to a multiple of 64 bytes. -/
def padMessage (msg : List Nat) : List Nat :=
  let len := msg.length
  let zeros := (119 - len % 64) % 64
  msg ++ [128] ++ List.replicate zeros 0 ++ toBE 8 (len * 8)

/-- Split a byte list into 64-byte blocks (fuelled structural recursion;
the fuel `l.length + 1` always suffices). -/
def chunks64Go : Nat → List Nat → List (List Nat)
  | 0, _ => []
  | _ + 1, [] => []
  | n + 1, l => l.take 64 :: chunks64Go n (l.drop 64)

/-- Split a byte list into 64-byte blocks. -/
def chunks64 (l : List Nat) : List (List Nat) := chunks64Go (l.length + 1) l

/-- Group bytes into big-endian 32-bit words. -/
def bytesToWords : List Nat → List Nat
  | b0 :: b1 :: b2 :: b3 :: rest =>
      (((b0 * 256 + b1) * 256 + b2) * 256 + b3) :: bytesToWords rest
  | _ => []

/-- Extend the 16-word message schedule by `k` further words. -/
def extendW : List Nat → Nat → List Nat
  | w, 0 => w
  | w, k + 1 =>
      let i := w.length
      let nw := w32 (ssig1 (w.getD (i - 2) 0) + w.getD (i - 7) 0 +
                     ssig0 (w.getD (i - 15) 0) + w.getD (i - 16) 0)
      extendW (w ++ [nw]) k

/-- One SHA-256 compression round; the state is the eight working words. -/
def roundStep (s : List Nat) (kw : Nat × Nat) : List Nat :=
  match s with
  | [a, b, c, d, e, f, g, h] =>
      let t1 := w32 (h + bsig1 e + chF e f g + kw.1 + kw.2)
      let t2 := w32 (bsig0 a + majF a b c)
      [w32 (t1 + t2), a, b, c, w32 (d + t1), e, f, g]
  | s => s

/-- Compress one 64-byte block into the running hash state. -/
def compressBlock (s : List Nat) (block : List Nat) : List Nat :=
  let w := extendW (bytesToWords block) 48
  let s2 := (List.zip K256 w).foldl roundStep s
  List.zipWith (fun x y => w32 (x + y)) s s2

/-- SHA-256 of a byte list, as eight 32-bit words. -/
def sha256 (msg : List Nat) : List Nat :=
  (chunks64 (padMessage msg)).foldl compressBlock H256

/-- Hexadecimal digit character. -/
def hexDigit (n : Nat) : Char := "0123456789abcdef".data.getD n '0'

/-- Lowercase hexadecimal rendering of a 32-bit word (8 digits). -/
def wordToHex (n : Nat) : List Char :=
  [hexDigit (n / 268435456 % 16), hexDigit (n / 16777216 % 16),
   hexDigit (n / 1048576 % 16), hexDigit (n / 65536 % 16),
   hexDigit (n / 4096 % 16), hexDigit (n / 256 % 16),
   hexDigit (n / 16 % 16), hexDigit (n % 16)]

/-- Hex digest of SHA-256, as `hashlib.sha256(...).hexdigest()` returns it. -/
def sha256_hex (msg : List Nat) : String :=
  String.mk ((sha256 msg).foldr (fun wd acc => wordToHex wd ++ acc) [])

/-- UTF-8 bytes of a string, as Python's `text.encode("utf-8")`; identical
to `String.toUTF8` (whose definition is `s.data.flatMap utf8EncodeChar`),
expressed on lists so that the kernel can evaluate it. -/
def utf8Bytes (s : String) : List Nat :=
  (s.data.flatMap String.utf8EncodeChar).map (fun b => b.toNat)

/-- The document id computed by `ingest_to_vector_db`:
`hashlib.sha256(text.encode("utf-8")).hexdigest()`. -/
def doc_id (text : String) : String := sha256_hex (utf8Bytes text)


/-! ## Data model -/

/-- A Python metadata value: scalars (string, integer, boolean) plus two
non-scalar possibilities (a list of strings and `None`), enough to express
what the remote protocol accepts and rejects. -/
inductive Value where
  | str (s : String)
  | int (n : Int)
  | bool (b : Bool)
  | listV (vs : List String)
  | noneV
deriving DecidableEq

/-- Whether a metadata value is a scalar (string, number or boolean). -/
def Value.isScalar : Value → Bool
  | .str _ => true
  | .int _ => true
  | .bool _ => true
  | .listV _ => false
  | .noneV => false

/-- A metadata mapping: string keys to values (association list). -/
abbrev Metadata : Type := List (String × Value)

/-- Lookup of a key in a metadata mapping. -/
def lookupMeta (k : String) : Metadata → Option Value
  | [] => none
  | (k', v) :: rest => if k' = k then some v else lookupMeta k rest

/-- A stored document in the collection: id, original text, metadata. -/
structure Entry where
  id : String
  document : String
  metadata : Metadata
deriving DecidableEq

/-- The add request submitted by `collection.add(documents=..., metadatas=...,
ids=...)`. -/
structure AddRequest where
  documents : List String
  metadatas : List Metadata
  ids : List String
deriving DecidableEq

/-- The parallel-array response of `collection.query`:
`documents`, `metadatas`, `distances`, each a list per query text. A
metadata slot may be `none` (Python `None`). -/
structure QueryResponse where
  documents : List (List String)
  metadatas : List (List (Option Metadata))
  distances : List (List Rat)
deriving DecidableEq

/-- One record of the list returned by `query_vector_db`:
`{"text": ..., "metadata": ..., "distance": ...}`. -/
structure Record where
  text : String
  metadata : Metadata
  distance : Rat
deriving DecidableEq

/-- A Python exception, coarsely classified by type. -/
inductive PyExc where
  | connectionError
  | valueError
  | indexError
  | authError
deriving DecidableEq

/-- The collection name constant `COLLECTION_NAME = "sales_features"`. -/
def COLLECTION_NAME : String := "sales_features"

/-! ## Remote Chroma collection (modelled from the spec) -/

/-- Modelled from the spec: truncate-free three-way zip, Python's
`zip(documents[0], metadatas[0], distances[0])`, which stops at the
shortest input. -/
def zip3 {α β γ : Type} : List α → List β → List γ → List (α × β × γ)
  | a :: as, b :: bs, c :: cs => (a, b, c) :: zip3 as bs cs
  | _, _, _ => []

/-- Modelled from the spec: upsert of one entry into the server-side
collection — re-ingesting an existing id replaces the stored document and
metadata for that id rather than duplicating it ("same id, upsert
semantics rather than duplication"). -/
def upsert (e : Entry) : List Entry → List Entry
  | [] => [e]
  | x :: xs => if x.id = e.id then e :: xs else x :: upsert e xs

/-- Modelled from the spec: the server applies an add request by upserting
each (document, metadata, id) triple. -/
def collection_add (req : AddRequest) (col : List Entry) : List Entry :=
  (zip3 req.documents req.metadatas req.ids).foldl
    (fun c x => upsert ⟨x.2.2, x.1, x.2.1⟩ c) col

/-- Modelled from the spec: whether a document's metadata satisfies the
`where` filter — no filter matches everything; `{"customer_name": f}`
matches exactly when the metadata field `customer_name` equals `f`. -/
def matchesWhere (w : Option String) (m : Metadata) : Bool :=
  match w with
  | none => true
  | some f => lookupMeta "customer_name" m = some (Value.str f)

/-- Ordering of entries by their distance to the query. -/
def distLe (key : Entry → Rat) (a b : Entry) : Prop := key a ≤ key b

instance (key : Entry → Rat) : DecidableRel (distLe key) :=
  fun a b => inferInstanceAs (Decidable (key a ≤ key b))

instance (key : Entry → Rat) : IsTotal Entry (distLe key) :=
  ⟨fun a b => le_total (key a) (key b)⟩

instance (key : Entry → Rat) : IsTrans Entry (distLe key) :=
  ⟨fun _ _ _ h1 h2 => le_trans h1 h2⟩

/-- Modelled from the spec: sort entries by ascending distance
("ordered by ascending distance (nearest first)"). -/
def sortByDist (key : Entry → Rat) (l : List Entry) : List Entry :=
  List.insertionSort (distLe key) l

/-- Modelled from the spec: the remote nearest-neighbor query. The
embedding distance between the query text and a stored document is an
opaque remote computation, abstracted as `dist`; the server keeps the
documents matching the `where` filter, orders them by ascending distance,
truncates to `n` results and answers with parallel arrays. -/
def remote_query (dist : String → String → Rat) (q : String) (n : Nat)
    (w : Option String) (col : List Entry) : QueryResponse :=
  let matching := col.filter fun e => matchesWhere w e.metadata
  let sorted := sortByDist (fun e => dist q e.document) matching
  let top := sorted.take n
  ⟨[top.map fun e => e.document],
   [top.map fun e => some e.metadata],
   [top.map fun e => dist q e.document]⟩

/-! ## Connector operations (translation of `rag/rag_engine.py`) -/

/-- The add request built by `ingest_to_vector_db`:
`collection.add(documents=[text], metadatas=[metadata], ids=[doc_id])`
with `doc_id = hashlib.sha256(text.encode("utf-8")).hexdigest()`. -/
def ingest_request (text : String) (metadata : Metadata) : AddRequest :=
  ⟨[text], [metadata], [doc_id text]⟩

/-- Translation of `ingest_to_vector_db(text, metadata)`: submit the add
request to the collection. -/
def ingest_to_vector_db (text : String) (metadata : Metadata)
    (col : List Entry) : List Entry :=
  collection_add (ingest_request text metadata) col

/-- The `where` argument built by `query_vector_db`:
`{"customer_name": customer_filter} if customer_filter else None` —
Python truthiness, so both `None` and the empty string yield no filter. -/
def build_where (customer_filter : Option String) : Option String :=
  match customer_filter with
  | none => none
  | some f => if f = "" then none else some f

/-- Python's `meta or {}`: `None` (and the empty mapping, which is falsy)
becomes the empty mapping. -/
def metaOr (m : Option Metadata) : Metadata :=
  match m with
  | none => []
  | some mm => if mm = [] then [] else mm

/-- The response reshaping in `query_vector_db`: return `[]` when
`results["documents"]` or `results["documents"][0]` is falsy, otherwise
zip `documents[0]`, `metadatas[0]`, `distances[0]` into records
(`IndexError` when `metadatas` or `distances` has no element 0). -/
def reshape (results : QueryResponse) : Except PyExc (List Record) :=
  match results.documents with
  | [] => .ok []
  | docs0 :: _ =>
      if docs0 = [] then .ok []
      else
        match results.metadatas, results.distances with
        | ms0 :: _, ds0 :: _ =>
            .ok ((zip3 docs0 ms0 ds0).map fun x => ⟨x.1, metaOr x.2.1, x.2.2⟩)
        | _, _ => .error .indexError

/-- Translation of `query_vector_db(query, customer_filter, n_results)`: build the
`where` filter, submit the query to the collection, reshape the parallel
arrays into a list of records. -/
def query_vector_db (dist : String → String → Rat) (q : String)
    (customer_filter : Option String) (n_results : Nat)
    (col : List Entry) : Except PyExc (List Record) :=
  let w := build_where customer_filter
  let results := remote_query dist q n_results w col
  reshape results

/-! ## Server-side collection registry, reset and initialization -/

/-- Modelled from the spec: the remote server's named collections, each
bound to an embedding function (identified by a number) and holding its
entries. -/
abbrev ServerState : Type := List (String × Nat × List Entry)

/-- Lookup of a named collection on the server. -/
def lookupColl (name : String) : ServerState → Option (Nat × List Entry)
  | [] => none
  | (n, c) :: rest => if n = name then some c else lookupColl name rest

/-- Modelled from the spec: `client.get_or_create_collection(name=...,
embedding_function=...)` — return the existing collection, or create an
empty one bound to the given embedding function. -/
def get_or_create (name : String) (ef : Nat) (s : ServerState) :
    ServerState × Nat × List Entry :=
  match lookupColl name s with
  | some c => (s, c)
  | none => (s ++ [(name, ef, [])], ef, [])

/-- Modelled from the spec: `client.delete_collection(name)` — remove the
named collection, surfacing an error when it does not exist
("surfaces remote errors (e.g., collection does not exist) verbatim"). -/
def delete_collection (name : String) (s : ServerState) :
    Except PyExc ServerState :=
  if (lookupColl name s).isSome then
    .ok (List.filter (fun p => ¬ p.1 = name) s)
  else .error .valueError

/-- The process-wide state the module holds: the server, the stored
collection handle, and the embedding function it was built with. -/
structure GlobalState where
  server : ServerState
  collection : List Entry
  embedding_func : Nat
deriving DecidableEq

/-- Translation of `reset_collection()`: delete the named collection server-side, then
get-or-create it with the same embedding function, rebinding the global
`collection` handle. -/
def reset_collection (g : GlobalState) : Except PyExc GlobalState :=
  match delete_collection COLLECTION_NAME g.server with
  | .error e => .error e
  | .ok s1 =>
      let r := get_or_create COLLECTION_NAME g.embedding_func s1
      .ok ⟨r.1, r.2.2, g.embedding_func⟩

/-- The environment initialization runs against: the outcome of each
successive liveness attempt (`heartbeat`), the server contents, and the
embedding function the configuration denotes. -/
structure InitEnv where
  heartbeat : Nat → Except PyExc Nat
  server : ServerState
  embedding_func : Nat

/-- Translation of `get_vector_client_and_collection()`: perform one liveness check
(`client.heartbeat()`), re-raising its exception verbatim on failure;
then resolve the collection with `get_or_create_collection`. -/
def get_vector_client_and_collection (env : InitEnv) :
    Except PyExc (List Entry) :=
  match env.heartbeat 0 with
  | .error e => .error e
  | .ok _ => .ok (get_or_create COLLECTION_NAME env.embedding_func env.server).2.2

deriving instance DecidableEq for Except

/-! ## Derived views and concrete inputs used by the theorems -/

/-- The entries a query keeps, in order: matching entries sorted by
ascending distance, truncated to `n` results. -/
def queryTop (dist : String → String → Rat) (q : String)
    (customer_filter : Option String) (n : Nat) (col : List Entry) :
    List Entry :=
  ((sortByDist (fun e => dist q e.document)
    (col.filter fun e => matchesWhere (build_where customer_filter) e.metadata)).take n)

/-- The record a kept entry turns into. -/
def toRecord (dist : String → String → Rat) (q : String) (e : Entry) : Record :=
  ⟨e.document, e.metadata, dist q e.document⟩

/-- The number of stored documents in scope of a query (those matching its
filter). -/
def matchCount (customer_filter : Option String) (col : List Entry) : Nat :=
  (col.filter fun e => matchesWhere (build_where customer_filter) e.metadata).length

/-- A concrete distance oracle: text "a" is at distance 2, all else at 1. -/
def d0 : String → String → Rat := fun _ t => if t = "a" then 2 else 1

/-- A stored document with a `customer_name` field. -/
def e1 : Entry := ⟨"id1", "a", [("customer_name", Value.str "Acme")]⟩

/-- A stored document with empty metadata. -/
def e2 : Entry := ⟨"id2", "b", []⟩

/-- The record `e1` yields under `d0`. -/
def rA : Record := ⟨"a", [("customer_name", Value.str "Acme")], 2⟩

/-- The record `e2` yields under `d0`. -/
def rB : Record := ⟨"b", [], 1⟩

/-- A metadata mapping holding a non-scalar (list) value. -/
def mBad : Metadata := [("tags", Value.listV ["a", "b"])]

/-- A global state whose server holds the named collection with one entry. -/
def g0 : GlobalState := ⟨[("sales_features", 7, [e1])], [e1], 7⟩

/-- The global state after resetting `g0`. -/
def gReset : GlobalState := ⟨[("sales_features", 7, [])], [], 7⟩

/-- An initialization environment whose liveness check fails with an
authorization error. -/
def envBad : InitEnv := ⟨fun _ => .error .authError, [], 0⟩

/-- Like `envBad` on the first liveness attempt, but later attempts would
succeed — used to show only the first attempt matters. -/
def envBad2 : InitEnv := ⟨fun k => if k = 0 then .error .authError else .ok 0, [], 0⟩

/-- A remote response with mismatched parallel-array lengths and a `None`
metadata slot. -/
def respMis : QueryResponse :=
  ⟨[["x", "y", "z"]], [[none, some [("k", Value.int 1)]]], [[1, 2, 3, 4]]⟩

/-! ## Helper lemmas -/

theorem metaOr_some (m : Metadata) : metaOr (some m) = m := by
  by_cases h : m = [] <;> simp [metaOr, h]

theorem zip3_map {α β γ δ : Type} (f : δ → α) (g : δ → β) (h : δ → γ) :
    ∀ l : List δ, zip3 (l.map f) (l.map g) (l.map h) = l.map fun x => (f x, g x, h x)
  | [] => rfl
  | x :: xs => by simp [zip3, zip3_map f g h xs]

theorem zip3_length {α β γ : Type} :
    ∀ (a : List α) (b : List β) (c : List γ),
      (zip3 a b c).length = min (min a.length b.length) c.length
  | [], b, c => by simp [zip3]
  | x :: xs, [], c => by simp [zip3]
  | x :: xs, y :: ys, [] => by simp [zip3]
  | x :: xs, y :: ys, z :: zs => by
      simp [zip3, zip3_length xs ys zs, Nat.succ_min_succ]

theorem zip3_getElem? {α β γ : Type} :
    ∀ (a : List α) (b : List β) (cc : List γ) (i : Nat) (x : α) (y : β) (z : γ),
      a[i]? = some x → b[i]? = some y → cc[i]? = some z →
      (zip3 a b cc)[i]? = some (x, y, z)
  | [], _, _, i, _, _, _ => by simp
  | _ :: _, [], _, i, _, _, _ => by simp
  | _ :: _, _ :: _, [], i, _, _, _ => by simp
  | a :: as, b :: bs, c :: cs, 0, x, y, z => by
      simp [zip3]
      intro hx hy hz
      simp [hx, hy, hz]
  | a :: as, b :: bs, c :: cs, i + 1, x, y, z => by
      simp [zip3]
      exact zip3_getElem? as bs cs i x y z

theorem reshape_mapped (l : List Entry) (fd : Entry → String)
    (fm : Entry → Metadata) (fr : Entry → Rat) :
    reshape ⟨[l.map fd], [l.map fun e => some (fm e)], [l.map fr]⟩ =
      .ok (l.map fun e => ⟨fd e, fm e, fr e⟩) := by
  cases l with
  | nil => rfl
  | cons e rest =>
      simp [reshape, zip3, zip3_map, metaOr_some]

theorem query_eq (dist : String → String → Rat) (q : String)
    (cf : Option String) (n : Nat) (col : List Entry) :
    query_vector_db dist q cf n col =
      .ok ((queryTop dist q cf n col).map (toRecord dist q)) := by
  show reshape (remote_query dist q n (build_where cf) col) = _
  unfold remote_query queryTop toRecord
  exact reshape_mapped _ _ _ _

theorem sortByDist_sorted (key : Entry → Rat) (l : List Entry) :
    List.Pairwise (distLe key) (sortByDist key l) :=
  List.sorted_insertionSort (distLe key) l

theorem queryTop_pairwise (dist : String → String → Rat) (q : String)
    (cf : Option String) (n : Nat) (col : List Entry) :
    List.Pairwise (fun a b => dist q a.document ≤ dist q b.document)
      (queryTop dist q cf n col) := by
  unfold queryTop
  exact List.Pairwise.sublist (List.take_sublist _ _)
    (sortByDist_sorted (fun e => dist q e.document) _)

theorem queryTop_length (dist : String → String → Rat) (q : String)
    (cf : Option String) (n : Nat) (col : List Entry) :
    (queryTop dist q cf n col).length = min n (matchCount cf col) := by
  unfold queryTop matchCount sortByDist
  simp

theorem queryTop_subset_matching (dist : String → String → Rat) (q : String)
    (cf : Option String) (n : Nat) (col : List Entry) (e : Entry)
    (he : e ∈ queryTop dist q cf n col) :
    e ∈ col.filter fun x => matchesWhere (build_where cf) x.metadata := by
  unfold queryTop at he
  have h1 : e ∈ sortByDist (fun x => dist q x.document)
      (col.filter fun x => matchesWhere (build_where cf) x.metadata) :=
    List.take_subset _ _ he
  unfold sortByDist at h1
  exact (List.mem_insertionSort _).mp h1

theorem upsert_id_mem (e : Entry) : ∀ l : List Entry,
    e.id ∈ (upsert e l).map Entry.id
  | [] => by simp [upsert]
  | x :: xs => by
      by_cases h : x.id = e.id
      · simp [upsert, h]
      · simp only [upsert, if_neg h, List.map_cons, List.mem_cons]
        exact Or.inr (upsert_id_mem e xs)

theorem upsert_id_of_mem (e : Entry) : ∀ l : List Entry,
    e.id ∈ l.map Entry.id → (upsert e l).map Entry.id = l.map Entry.id
  | [], h => by simp at h
  | x :: xs, h => by
      by_cases hx : x.id = e.id
      · simp [upsert, hx]
      · simp only [List.map_cons, List.mem_cons] at h
        rcases h with h | h
        · exact absurd h.symm hx
        · simp only [upsert, if_neg hx, List.map_cons]
          rw [upsert_id_of_mem e xs h]

theorem lookupColl_filter_self (name : String) : ∀ s : ServerState,
    lookupColl name (List.filter (fun p => ¬ p.1 = name) s) = none
  | [] => rfl
  | (n, c) :: rest => by
      by_cases h : n = name
      · simpa [List.filter, h] using lookupColl_filter_self name rest
      · simpa [List.filter, h, lookupColl] using lookupColl_filter_self name rest

theorem lookupColl_append_of_none (name : String) (v : Nat × List Entry) :
    ∀ s : ServerState, lookupColl name s = none →
      lookupColl name (s ++ [(name, v)]) = some v
  | [], _ => by simp [lookupColl]
  | (n, c) :: rest, h => by
      by_cases hn : n = name
      · simp [lookupColl, hn] at h
      · simp [lookupColl, hn] at h ⊢
        exact lookupColl_append_of_none name v rest h

/-! ## Claim theorems -/

/-- Claim C1: ingest computes the document id as the hex-encoded SHA-256
hash of the UTF-8 bytes of the text; ingesting the same text twice (with
any metadata) submits the same id both times, and the second ingest adds
no new stored id (upsert, one stored id, not two). -/
theorem C1_ingest_id (t : String) (m1 m2 : Metadata) (col : List Entry) :
    (ingest_request t m1).ids = [sha256_hex (utf8Bytes t)] ∧
    (ingest_request t m2).ids = (ingest_request t m1).ids ∧
    (ingest_to_vector_db t m2 (ingest_to_vector_db t m1 col)).map Entry.id =
      (ingest_to_vector_db t m1 col).map Entry.id := by
  refine ⟨rfl, rfl, ?_⟩
  have h1 : ingest_to_vector_db t m1 col = upsert ⟨doc_id t, t, m1⟩ col := rfl
  have h2 : ingest_to_vector_db t m2 (ingest_to_vector_db t m1 col) =
      upsert ⟨doc_id t, t, m2⟩ (upsert ⟨doc_id t, t, m1⟩ col) := rfl
  rw [h2, h1]
  exact upsert_id_of_mem _ _ (upsert_id_mem ⟨doc_id t, t, m1⟩ col)

/-- Counterexample to claim C7 as stated: ingest submits a metadata
mapping holding a non-scalar (list) value to the add request unchanged —
nothing is rejected or coerced locally. -/
theorem C7_counterexample :
    (ingest_request "t" mBad).metadatas = [mBad] ∧
    Value.isScalar (Value.listV ["a", "b"]) = false ∧
    lookupMeta "tags" mBad = some (Value.listV ["a", "b"]) :=
  ⟨rfl, rfl, rfl⟩

/-- Claim C7 (amended): ingest performs no local validation or coercion —
the text and the metadata mapping, non-scalar values included, are placed
in the add request verbatim; any rejection happens remotely. -/
theorem C7_no_local_validation (t : String) (m : Metadata) :
    (ingest_request t m).metadatas = [m] ∧
    (ingest_request t m).documents = [t] :=
  ⟨rfl, rfl⟩

/-- Claim C9: a supplied empty-string customer filter is falsy in Python,
so no `where` filter is built and the query is the same remote request as
with no filter at all. -/
theorem C9_empty_string_filter (dist : String → String → Rat) (q : String)
    (n : Nat) (col : List Entry) :
    build_where (some "") = none ∧
    query_vector_db dist q (some "") n col =
      query_vector_db dist q none n col :=
  ⟨rfl, rfl⟩

/-- Counterexample to claim C2 as stated: with the supplied filter string
`""`, a document without the `customer_name` field is returned, and its
metadata does not equal the filter value. -/
theorem C2_counterexample :
    query_vector_db d0 "q" (some "") 1 [e2] = .ok [rB] ∧
    lookupMeta "customer_name" rB.metadata ≠ some (Value.str "") :=
  ⟨by decide, by decide⟩

/-- Claim C2 (amended): for every non-empty supplied filter string `f`,
every record returned by query carries metadata whose `customer_name`
field equals `f` exactly; documents lacking the field or carrying another
value never appear. -/
theorem C2_filter_correct (dist : String → String → Rat) (q f : String)
    (n : Nat) (col : List Entry) (l : List Record) (r : Record)
    (hf : f ≠ "") (hq : query_vector_db dist q (some f) n col = .ok l)
    (hr : r ∈ l) :
    lookupMeta "customer_name" r.metadata = some (Value.str f) := by
  rw [query_eq] at hq
  injection hq with h
  subst h
  obtain ⟨e, he, rfl⟩ := List.mem_map.mp hr
  have hm := List.mem_filter.mp (queryTop_subset_matching dist q (some f) n col e he)
  have hmw := hm.2
  simp only [build_where, if_neg hf, matchesWhere, decide_eq_true_eq] at hmw
  simpa [toRecord] using hmw

/-- Witness for claim C2 at a concrete input. -/
theorem C2_filter_correct_witness :
    ("Acme" : String) ≠ "" ∧
    query_vector_db d0 "q" (some "Acme") 5 [e1, e2] = .ok [rA] ∧
    lookupMeta "customer_name" rA.metadata = some (Value.str "Acme") :=
  ⟨by decide, by decide,
   C2_filter_correct d0 "q" "Acme" 5 [e1, e2] [rA] rA (by decide) (by decide)
     (by decide)⟩

/-- Claim C3: the sequence returned by query has length at most the
requested count, and equals the number of matching stored documents in
scope when fewer than that count exist. -/
theorem C3_result_bound (dist : String → String → Rat) (q : String)
    (cf : Option String) (n : Nat) (col : List Entry) (l : List Record)
    (hq : query_vector_db dist q cf n col = .ok l) :
    l.length ≤ n ∧
    (matchCount cf col < n → l.length = matchCount cf col) := by
  rw [query_eq] at hq
  injection hq with h
  subst h
  rw [List.length_map, queryTop_length]
  exact ⟨Nat.min_le_left _ _, fun hlt => Nat.min_eq_right (Nat.le_of_lt hlt)⟩

/-- Witness for claim C3 at a concrete input: two stored documents, five
requested, two returned. -/
theorem C3_result_bound_witness :
    query_vector_db d0 "q" none 5 [e1, e2] = .ok [rB, rA] ∧
    ([rB, rA] : List Record).length ≤ 5 ∧
    ([rB, rA] : List Record).length = matchCount none [e1, e2] :=
  ⟨by decide,
   (C3_result_bound d0 "q" none 5 [e1, e2] [rB, rA] (by decide)).1,
   (C3_result_bound d0 "q" none 5 [e1, e2] [rB, rA] (by decide)).2 (by decide)⟩

/-- Claim C4: the sequence returned by query is sorted by non-decreasing
distance — each adjacent pair of records satisfies
`R_i.distance ≤ R_{i+1}.distance`. -/
theorem C4_sorted_by_distance (dist : String → String → Rat) (q : String)
    (cf : Option String) (n : Nat) (col : List Entry) (l : List Record)
    (hq : query_vector_db dist q cf n col = .ok l) :
    List.Chain' (fun a b => a.distance ≤ b.distance) l := by
  rw [query_eq] at hq
  injection hq with h
  subst h
  exact List.Pairwise.chain'
    ((queryTop_pairwise dist q cf n col).map (toRecord dist q)
      (fun a b hab => hab))

/-- Witness for claim C4 at a concrete input with two returned records. -/
theorem C4_sorted_by_distance_witness :
    query_vector_db d0 "q" none 5 [e1, e2] = .ok [rB, rA] ∧
    List.Chain' (fun a b => a.distance ≤ b.distance) [rB, rA] :=
  ⟨by decide,
   C4_sorted_by_distance d0 "q" none 5 [e1, e2] [rB, rA] (by decide)⟩

/-- Claim C5: when no stored document matches the query's filter — in
particular when the collection is empty, e.g. freshly reset — query
returns the empty sequence, not an error. -/
theorem C5_empty_result (dist : String → String → Rat) (q : String)
    (cf : Option String) (n : Nat) (col : List Entry)
    (h : col.filter (fun e => matchesWhere (build_where cf) e.metadata) = []) :
    query_vector_db dist q cf n col = .ok [] := by
  rw [query_eq]
  unfold queryTop sortByDist
  rw [h]
  simp

/-- Witness for claim C5 at the empty collection. -/
theorem C5_empty_result_witness :
    ([] : List Entry).filter
      (fun e => matchesWhere (build_where none) e.metadata) = [] ∧
    query_vector_db d0 "q" none 10 [] = .ok [] :=
  ⟨by decide, C5_empty_result d0 "q" none 10 [] (by decide)⟩

theorem query_vector_db_nil (dist : String → String → Rat) (q : String)
    (cf : Option String) (n : Nat) :
    query_vector_db dist q cf n [] = .ok [] := by
  rw [query_eq]
  unfold queryTop sortByDist
  simp

theorem lookupColl_filter_bnot (name : String) (s : ServerState) :
    lookupColl name (List.filter (fun p => !decide (p.1 = name)) s) = none := by
  simpa using lookupColl_filter_self name s

theorem reset_collection_eq (g : GlobalState)
    (hs : (lookupColl COLLECTION_NAME g.server).isSome = true) :
    reset_collection g =
      .ok ⟨(List.filter (fun p => ¬ p.1 = COLLECTION_NAME) g.server) ++
            [(COLLECTION_NAME, g.embedding_func, [])], [], g.embedding_func⟩ := by
  unfold reset_collection delete_collection get_or_create
  rw [if_pos hs]
  simp [lookupColl_filter_bnot]

/-- Claim C6: resetting deletes the named collection server-side and
recreates it empty, bound to the same embedding function, replacing the
stored handle; any query that before the reset returned a non-empty
result returns zero results afterwards. -/
theorem C6_reset_destroys (g : GlobalState) (dist : String → String → Rat)
    (q : String) (cf : Option String) (n : Nat) (l : List Record)
    (dist2 : String → String → Rat) (q2 : String) (cf2 : Option String)
    (n2 : Nat)
    (hs : (lookupColl COLLECTION_NAME g.server).isSome = true)
    (hq : query_vector_db dist q cf n g.collection = .ok l)
    (hl : 0 < l.length) :
    ∃ g2, reset_collection g = .ok g2 ∧
      g2.collection = [] ∧
      lookupColl COLLECTION_NAME g2.server = some (g.embedding_func, []) ∧
      query_vector_db dist2 q2 cf2 n2 g2.collection = .ok [] := by
  refine ⟨_, reset_collection_eq g hs, rfl, ?_, ?_⟩
  · exact lookupColl_append_of_none _ _ _ (lookupColl_filter_self _ _)
  · exact query_vector_db_nil dist2 q2 cf2 n2

/-- Witness for claim C6 at a concrete state: one stored document, a query
returning it, then a reset after which the same kind of query returns
nothing. -/
theorem C6_reset_destroys_witness :
    reset_collection g0 = .ok gReset ∧
    gReset.collection = [] ∧
    lookupColl COLLECTION_NAME gReset.server = some (7, []) ∧
    query_vector_db d0 "q2" none 3 gReset.collection = .ok [] := by
  obtain ⟨g2, h1, h2, h3, h4⟩ :=
    C6_reset_destroys g0 d0 "q" none 1 [rA] d0 "q2" none 3
      (by decide) (by decide) (by decide)
  have h5 : reset_collection g0 = .ok gReset := by decide
  rw [h5] at h1
  injection h1 with h1
  subst h1
  exact ⟨h5, h2, h3, h4⟩

/-- Counterexample to claim C8 as stated: a liveness check that fails with
an authorization error makes initialization re-raise that very exception,
which is not a ConnectionError. -/
theorem C8_counterexample :
    get_vector_client_and_collection envBad = .error PyExc.authError ∧
    PyExc.authError ≠ PyExc.connectionError :=
  ⟨rfl, by decide⟩

/-- Claim C8 (amended): initialization raises an error exactly when the
liveness check cannot complete, re-raising the liveness exception verbatim
(whatever its type — not necessarily ConnectionError); the failure is
fatal and not retried: the outcome depends only on the first liveness
attempt. -/
theorem C8_liveness_fatal (env env2 : InitEnv) (e : PyExc) :
    (get_vector_client_and_collection env = .error e ↔
      env.heartbeat 0 = .error e) ∧
    (env.heartbeat 0 = env2.heartbeat 0 → env.server = env2.server →
      env.embedding_func = env2.embedding_func →
      get_vector_client_and_collection env =
        get_vector_client_and_collection env2) := by
  constructor
  · unfold get_vector_client_and_collection
    cases h : env.heartbeat 0 with
    | error e2 => simp
    | ok v => simp
  · intro h1 h2 h3
    unfold get_vector_client_and_collection
    rw [h1, h2, h3]

/-- Witness for claim C8: a failing first liveness attempt aborts
initialization with that exception, and later attempts are irrelevant. -/
theorem C8_liveness_fatal_witness :
    get_vector_client_and_collection envBad = .error PyExc.authError ∧
    get_vector_client_and_collection envBad =
      get_vector_client_and_collection envBad2 :=
  ⟨(C8_liveness_fatal envBad envBad PyExc.authError).1.mpr rfl,
   (C8_liveness_fatal envBad envBad2 PyExc.authError).2 rfl rfl rfl⟩

/-- Claim C10: for every remote response carrying the three parallel
arrays `documents[0]`, `metadatas[0]`, `distances[0]`, the reshaping never
raises: it returns a list whose length is the minimum of the three array
lengths (mismatches silently truncate), and a record whose metadata slot
is `None` comes back with an empty mapping. -/
theorem C10_zip_truncation (docs0 : List String) (dtl : List (List String))
    (ms0 : List (Option Metadata)) (mtl : List (List (Option Metadata)))
    (ds0 : List Rat) (dstl : List (List Rat)) :
    (reshape ⟨docs0 :: dtl, ms0 :: mtl, ds0 :: dstl⟩).isOk = true ∧
    ∀ (l : List Record), reshape ⟨docs0 :: dtl, ms0 :: mtl, ds0 :: dstl⟩ = .ok l →
      l.length = min (min docs0.length ms0.length) ds0.length ∧
      ∀ (i : Nat) (d : String) (dd : Rat), docs0[i]? = some d →
        ms0[i]? = some none → ds0[i]? = some dd →
        l[i]? = some (⟨d, [], dd⟩ : Record) := by
  by_cases h : docs0 = []
  · subst h
    have he : reshape ⟨([] : List String) :: dtl, ms0 :: mtl, ds0 :: dstl⟩ =
        .ok [] := by
      simp [reshape]
    rw [he]
    refine ⟨rfl, ?_⟩
    intro l hl
    injection hl with hl
    subst hl
    refine ⟨by simp, ?_⟩
    intro i d dd hd
    simp at hd
  · have he : reshape ⟨docs0 :: dtl, ms0 :: mtl, ds0 :: dstl⟩ =
        .ok ((zip3 docs0 ms0 ds0).map fun x => ⟨x.1, metaOr x.2.1, x.2.2⟩) := by
      simp [reshape, h]
    rw [he]
    refine ⟨rfl, ?_⟩
    intro l hl
    injection hl with hl
    subst hl
    refine ⟨by simp [zip3_length], ?_⟩
    intro i d dd hd hm hds
    rw [List.getElem?_map, zip3_getElem? docs0 ms0 ds0 i d none dd hd hm hds]
    rfl

/-- Witness for claim C10 at a concrete response with mismatched array
lengths (3, 2 and 4) and a `None` metadata slot in first position. -/
theorem C10_zip_truncation_witness :
    reshape respMis =
      .ok [⟨"x", [], 1⟩, ⟨"y", [("k", Value.int 1)], 2⟩] ∧
    ([⟨"x", [], 1⟩, ⟨"y", [("k", Value.int 1)], 2⟩] : List Record).length =
      min (min 3 2) 4 ∧
    ([⟨"x", [], 1⟩, ⟨"y", [("k", Value.int 1)], 2⟩] : List Record)[0]? =
      some ⟨"x", [], 1⟩ := by
  have h := (C10_zip_truncation ["x", "y", "z"] []
    [none, some [("k", Value.int 1)]] [] [1, 2, 3, 4] []).2
    [⟨"x", [], 1⟩, ⟨"y", [("k", Value.int 1)], 2⟩] (by decide)
  exact ⟨by decide, h.1, h.2 0 "x" 1 (by decide) (by decide) (by decide)⟩
